import Mathlib

/-!
Shallow embedding of the portfolio service layer (`app/models.py`,
`app/services.py`): a relational store is a record of lists of rows, each
row type mirrors its SQLModel table (datetimes become `Nat` instants,
JSON dicts become association lists, autoincrement ids become
`Option Nat` assigned on insert as `length + 1`).  Service operations are
pure functions from a store to a result together with the successor
store.  `datetime.utcnow()` is an explicit `now : Nat` parameter.
-/

/- Enums from `app/models.py`. -/

inductive ProjectType where
  | ui_ux
  | photography
  | three_d_design
  | other
deriving DecidableEq

inductive ProjectStatus where
  | draft
  | published
  | archived
deriving DecidableEq

inductive MessageStatus where
  | new
  | read
  | replied
  | archived
deriving DecidableEq

inductive GalleryType where
  | portfolio
  | personal
  | client
  | exhibition
deriving DecidableEq

/-- Row of table `users` (`User` in `app/models.py`). -/
structure User where
  id : Option Nat := none
  name : String
  email : String
  bio : String := ""
  profession : String := ""
  location : String := ""
  website : String := ""
  linkedin : String := ""
  instagram : String := ""
  behance : String := ""
  dribbble : String := ""
  is_active : Bool := true
  created_at : Nat
  updated_at : Nat
deriving DecidableEq

/-- Row of table `projects` (`Project` in `app/models.py`). -/
structure Project where
  id : Option Nat := none
  title : String
  slug : String
  description : String := ""
  detailed_description : String := ""
  project_type : ProjectType := ProjectType.other
  status : ProjectStatus := ProjectStatus.draft
  thumbnail_url : String := ""
  cover_image_url : String := ""
  client_name : String := ""
  project_url : String := ""
  github_url : String := ""
  behance_url : String := ""
  dribbble_url : String := ""
  tags : List String := []
  technologies : List String := []
  color_palette : List String := []
  project_duration : String := ""
  completion_date : Option Nat := none
  featured : Bool := false
  sort_order : Int := 0
  view_count : Nat := 0
  like_count : Nat := 0
  owner_id : Nat
  created_at : Nat
  updated_at : Nat
deriving DecidableEq

/-- Row of table `project_images` (`ProjectImage` in `app/models.py`). -/
structure ProjectImage where
  id : Option Nat := none
  project_id : Nat
  image_url : String
  alt_text : String := ""
  caption : String := ""
  width : Option Nat := none
  height : Option Nat := none
  file_size : Option Nat := none
  sort_order : Int := 0
  is_featured : Bool := false
  created_at : Nat
deriving DecidableEq

/-- Row of table `galleries` (`Gallery` in `app/models.py`). -/
structure Gallery where
  id : Option Nat := none
  title : String
  slug : String
  description : String := ""
  gallery_type : GalleryType := GalleryType.portfolio
  cover_image_url : String := ""
  location : String := ""
  shoot_date : Option Nat := none
  featured : Bool := false
  is_public : Bool := true
  sort_order : Int := 0
  view_count : Nat := 0
  owner_id : Nat
  created_at : Nat
  updated_at : Nat
deriving DecidableEq

/-- Row of table `photos` (`Photo` in `app/models.py`). -/
structure Photo where
  id : Option Nat := none
  gallery_id : Nat
  title : String := ""
  description : String := ""
  image_url : String
  thumbnail_url : String := ""
  alt_text : String := ""
  width : Option Nat := none
  height : Option Nat := none
  file_size : Option Nat := none
  camera_model : String := ""
  lens : String := ""
  focal_length : String := ""
  aperture : String := ""
  shutter_speed : String := ""
  iso : String := ""
  taken_at : Option Nat := none
  location : String := ""
  tags : List String := []
  featured : Bool := false
  sort_order : Int := 0
  created_at : Nat
deriving DecidableEq

/-- Row of table `three_d_projects` (`ThreeDProject` in `app/models.py`). -/
structure ThreeDProject where
  id : Option Nat := none
  title : String
  slug : String
  description : String := ""
  software_used : List String := []
  render_engine : String := ""
  render_time : String := ""
  polygon_count : Option Nat := none
  texture_resolution : String := ""
  featured_image_url : String := ""
  project_type : String := ""
  style : String := ""
  tags : List String := []
  featured : Bool := false
  sort_order : Int := 0
  view_count : Nat := 0
  created_at : Nat
  updated_at : Nat
deriving DecidableEq

/-- Row of table `three_d_renders` (`ThreeDRender` in `app/models.py`). -/
structure ThreeDRender where
  id : Option Nat := none
  project_id : Nat
  title : String := ""
  description : String := ""
  image_url : String
  thumbnail_url : String := ""
  alt_text : String := ""
  width : Option Nat := none
  height : Option Nat := none
  file_size : Option Nat := none
  render_settings : List (String × String) := []
  is_final : Bool := true
  sort_order : Int := 0
  created_at : Nat
deriving DecidableEq

/-- Row of table `contact_messages` (`ContactMessage` in `app/models.py`). -/
structure ContactMessage where
  id : Option Nat := none
  name : String
  email : String
  subject : String
  message : String
  status : MessageStatus := MessageStatus.new
  ip_address : String := ""
  user_agent : String := ""
  replied_at : Option Nat := none
  created_at : Nat
deriving DecidableEq

/-- Row of table `site_config` (`SiteConfig` in `app/models.py`). -/
structure SiteConfig where
  id : Option Nat := none
  site_title : String := "Portfolio"
  site_description : String := ""
  owner_name : String := ""
  hero_title : String := ""
  hero_subtitle : String := ""
  hero_image_url : String := ""
  about_text : String := ""
  about_image_url : String := ""
  contact_email : String := ""
  phone : String := ""
  address : String := ""
  social_links : List (String × String) := []
  theme_colors : List (String × String) := []
  seo_keywords : List String := []
  google_analytics_id : String := ""
  updated_at : Nat
deriving DecidableEq

/-- Contact-form validation schema (`ContactMessageCreate` in `app/models.py`,
`table=False`: not persisted). -/
structure ContactMessageCreate where
  name : String
  email : String
  subject : String
  message : String
deriving DecidableEq

/-- Length constraints carried by the `Field(max_length=...)` declarations of
`ContactMessageCreate`; pydantic enforces them before the service is called. -/
def ContactMessageCreate.valid (md : ContactMessageCreate) : Prop :=
  md.name.length ≤ 100 ∧ md.email.length ≤ 255 ∧
    md.subject.length ≤ 200 ∧ md.message.length ≤ 2000

instance (md : ContactMessageCreate) : Decidable md.valid := by
  unfold ContactMessageCreate.valid
  infer_instance

/-- The relational store: one list of rows per table touched by the service
layer.  `ProjectSection` is omitted: no service operation reads or writes it. -/
structure Store where
  users : List User := []
  siteConfigs : List SiteConfig := []
  projects : List Project := []
  projectImages : List ProjectImage := []
  galleries : List Gallery := []
  photos : List Photo := []
  threeDProjects : List ThreeDProject := []
  threeDRenders : List ThreeDRender := []
  contactMessages : List ContactMessage := []
deriving DecidableEq

/-- A freshly reset database: every table empty. -/
def emptyStore : Store := {}

/- Ordering relations used by the queries.  `ORDER BY k1 DESC, k2 DESC`
is embedded as sorting with the non-strict total preorder `keyDesc k1 k2`;
`ORDER BY k DESC` on a single time column as `timeDesc k`. -/

/-- Lexicographic descending order on a primary `Int` key and a secondary
`Nat` key: the embedding of `ORDER BY k1 DESC, k2 DESC`. -/
def keyDesc {α : Type} (k1 : α → Int) (k2 : α → Nat) (p q : α) : Prop :=
  k1 q < k1 p ∨ (k1 p = k1 q ∧ k2 q ≤ k2 p)

instance {α : Type} (k1 : α → Int) (k2 : α → Nat) : DecidableRel (keyDesc k1 k2) :=
  fun p q => by unfold keyDesc; infer_instance

instance {α : Type} (k1 : α → Int) (k2 : α → Nat) : IsTotal α (keyDesc k1 k2) where
  total a b := by
    rcases lt_trichotomy (k1 a) (k1 b) with h | h | h
    · exact Or.inr (Or.inl h)
    · rcases Nat.le_total (k2 a) (k2 b) with h2 | h2
      · exact Or.inr (Or.inr ⟨h.symm, h2⟩)
      · exact Or.inl (Or.inr ⟨h, h2⟩)
    · exact Or.inl (Or.inl h)

instance {α : Type} (k1 : α → Int) (k2 : α → Nat) : IsTrans α (keyDesc k1 k2) where
  trans a b c hab hbc := by
    rcases hab with h1 | ⟨h1, h1'⟩
    · rcases hbc with h2 | ⟨h2, _⟩
      · exact Or.inl (lt_trans h2 h1)
      · exact Or.inl (h2 ▸ h1)
    · rcases hbc with h2 | ⟨h2, h2'⟩
      · exact Or.inl (h1 ▸ h2)
      · exact Or.inr ⟨h1.trans h2, Nat.le_trans h2' h1'⟩

/-- Descending order on a single `Nat` time key: the embedding of
`ORDER BY k DESC`. -/
def timeDesc {α : Type} (k : α → Nat) (p q : α) : Prop :=
  k q ≤ k p

instance {α : Type} (k : α → Nat) : DecidableRel (timeDesc k) :=
  fun p q => by unfold timeDesc; infer_instance

instance {α : Type} (k : α → Nat) : IsTotal α (timeDesc k) where
  total a b := Nat.le_total (k b) (k a)

instance {α : Type} (k : α → Nat) : IsTrans α (timeDesc k) where
  trans _ _ _ hab hbc := Nat.le_trans hbc hab

/-- Ordering used by every Project listing query:
`ORDER BY sort_order DESC, created_at DESC`. -/
abbrev projOrder : Project → Project → Prop :=
  keyDesc (fun p => p.sort_order) (fun p => p.created_at)

/-- Ordering used by every Gallery listing query. -/
abbrev galleryOrder : Gallery → Gallery → Prop :=
  keyDesc (fun g => g.sort_order) (fun g => g.created_at)

/-- Ordering used by the ThreeDProject listing query. -/
abbrev threeDOrder : ThreeDProject → ThreeDProject → Prop :=
  keyDesc (fun p => p.sort_order) (fun p => p.created_at)

/-- Ordering used by `get_recent_messages`: `ORDER BY created_at DESC`. -/
abbrev msgOrder : ContactMessage → ContactMessage → Prop :=
  timeDesc (fun m => m.created_at)

/- Generic slug lookup.  `get_project_by_slug`, `get_gallery_by_slug` and
`get_3d_project_by_slug` share one shape: find the first row whose slug
matches, and on a hit increment its `view_count` and write the updated row
back over the row with the same primary key (`session.add` + `commit`
update the row identified by its id).  `getBySlug` captures that shape once,
parameterised by the slug / id projections and the increment. -/

/-- Write `p2` over every row carrying primary key `target`
(the ORM `UPDATE ... WHERE id = target`; ids are unique in the database). -/
def updateById {α : Type} (rid : α → Option Nat) (target : Option Nat)
    (p2 : α) (rows : List α) : List α :=
  rows.map fun q => if rid q = target then p2 else q

/-- Slug lookup with view-count increment, shared shape of the three
`get_*_by_slug` services: result row (if any) and the updated table. -/
def getBySlug {α : Type} (sl : α → String) (rid : α → Option Nat)
    (inc : α → α) (slug : String) (rows : List α) : Option α × List α :=
  match rows.find? (fun r => decide (sl r = slug)) with
  | none => (none, rows)
  | some p => (some (inc p), updateById rid (rid p) (inc p) rows)

/- Service layer (`PortfolioService` in `app/services.py`).  Each operation
takes the store and returns its result; operations that write also return
the successor store. -/

/-- `get_site_config`: first row of `site_config`, no mutation. -/
def get_site_config (s : Store) : Option SiteConfig :=
  s.siteConfigs.head?

/-- `get_portfolio_owner`: first user with `is_active`, no mutation. -/
def get_portfolio_owner (s : Store) : Option User :=
  s.users.find? fun u => u.is_active

/-- `get_featured_projects`: published and featured, ordered by
`sort_order` desc then `created_at` desc, truncated to `limit` (default 6). -/
def get_featured_projects (s : Store) (limit : Nat := 6) : List Project :=
  (List.insertionSort projOrder
    (s.projects.filter fun p =>
      decide (p.status = ProjectStatus.published ∧ p.featured = true))).take limit

/-- `get_projects_by_type`: published of the given type, same ordering;
`.limit` is applied only when the Python `limit` is truthy, i.e. neither
`None` nor `0`. -/
def get_projects_by_type (s : Store) (ty : ProjectType)
    (limit : Option Nat := none) : List Project :=
  let rows := List.insertionSort projOrder
    (s.projects.filter fun p =>
      decide (p.status = ProjectStatus.published ∧ p.project_type = ty))
  match limit with
  | none => rows
  | some n => if n = 0 then rows else rows.take n

/-- Increment of a project's `view_count` performed by a slug lookup. -/
def incProject (p : Project) : Project :=
  { p with view_count := p.view_count + 1 }

/-- `get_project_by_slug`: first row matching the slug (any status); on a
hit the row's `view_count` is incremented and persisted. -/
def get_project_by_slug (s : Store) (slug : String) : Option Project × Store :=
  let r := getBySlug (fun p => p.slug) (fun p => p.id) incProject slug s.projects
  (r.1, { s with projects := r.2 })

/-- `get_project_images`: children of a project by foreign key, no mutation. -/
def get_project_images (s : Store) (project_id : Nat) : List ProjectImage :=
  s.projectImages.filter fun im => decide (im.project_id = project_id)

/-- `get_featured_galleries`: public and featured, ordered, truncated. -/
def get_featured_galleries (s : Store) (limit : Nat := 6) : List Gallery :=
  (List.insertionSort galleryOrder
    (s.galleries.filter fun g =>
      decide (g.is_public = true ∧ g.featured = true))).take limit

/-- `get_galleries_by_type`: public of the given kind, same truthiness
handling of `limit` as `get_projects_by_type`. -/
def get_galleries_by_type (s : Store) (ty : GalleryType)
    (limit : Option Nat := none) : List Gallery :=
  let rows := List.insertionSort galleryOrder
    (s.galleries.filter fun g =>
      decide (g.is_public = true ∧ g.gallery_type = ty))
  match limit with
  | none => rows
  | some n => if n = 0 then rows else rows.take n

/-- Increment of a gallery's `view_count` performed by a slug lookup. -/
def incGallery (g : Gallery) : Gallery :=
  { g with view_count := g.view_count + 1 }

/-- `get_gallery_by_slug`: first row matching the slug (public or not); on a
hit the row's `view_count` is incremented and persisted. -/
def get_gallery_by_slug (s : Store) (slug : String) : Option Gallery × Store :=
  let r := getBySlug (fun g => g.slug) (fun g => g.id) incGallery slug s.galleries
  (r.1, { s with galleries := r.2 })

/-- `get_gallery_photos`: children of a gallery by foreign key, no mutation. -/
def get_gallery_photos (s : Store) (gallery_id : Nat) : List Photo :=
  s.photos.filter fun ph => decide (ph.gallery_id = gallery_id)

/-- `get_featured_3d_projects`: featured, ordered, truncated. -/
def get_featured_3d_projects (s : Store) (limit : Nat := 6) : List ThreeDProject :=
  (List.insertionSort threeDOrder
    (s.threeDProjects.filter fun p => p.featured)).take limit

/-- Increment of a 3D project's `view_count` performed by a slug lookup. -/
def incThreeD (p : ThreeDProject) : ThreeDProject :=
  { p with view_count := p.view_count + 1 }

/-- `get_3d_project_by_slug`: first row matching the slug; on a hit the
row's `view_count` is incremented and persisted. -/
def get_3d_project_by_slug (s : Store) (slug : String) :
    Option ThreeDProject × Store :=
  let r := getBySlug (fun p => p.slug) (fun p => p.id) incThreeD slug s.threeDProjects
  (r.1, { s with threeDProjects := r.2 })

/-- `get_3d_project_renders`: children of a 3D project, no mutation. -/
def get_3d_project_renders (s : Store) (project_id : Nat) : List ThreeDRender :=
  s.threeDRenders.filter fun r => decide (r.project_id = project_id)

/-- `create_contact_message`: builds the row with the supplied fields,
`status = NEW`, `created_at = now` and empty `replied_at`, persists it
(the store assigns the next id) and returns the refreshed record. -/
def create_contact_message (s : Store) (message_data : ContactMessageCreate)
    (ip_address : String) (user_agent : String) (now : Nat) :
    ContactMessage × Store :=
  let m : ContactMessage :=
    { id := some (s.contactMessages.length + 1)
      name := message_data.name
      email := message_data.email
      subject := message_data.subject
      message := message_data.message
      ip_address := ip_address
      user_agent := user_agent
      status := MessageStatus.new
      created_at := now }
  (m, { s with contactMessages := s.contactMessages ++ [m] })

/-- `get_recent_messages`: all contact messages ordered by `created_at`
descending, truncated to `limit` (default 10). -/
def get_recent_messages (s : Store) (limit : Nat := 10) : List ContactMessage :=
  (List.insertionSort msgOrder s.contactMessages).take limit

/-- Owner row inserted by the seed (user table is empty in the inserting
branch, so the database assigns id 1). -/
def seedOwner (now : Nat) : User :=
  { id := some 1
    name := "Alexandra Smith"
    email := "alex@portfolio.com"
    bio := "I\x27m a passionate UI/UX designer and photographer with over 5 years of experience creating meaningful digital experiences and capturing life\x27s beautiful moments."
    profession := "UI/UX Designer & Photographer"
    location := "San Francisco, CA"
    website := "https://alexandra-portfolio.com"
    linkedin := "https://linkedin.com/in/alexandrasmith"
    instagram := "https://instagram.com/alex_designs"
    behance := "https://behance.net/alexandrasmith"
    dribbble := "https://dribbble.com/alexsmith"
    created_at := now
    updated_at := now }

/-- Site configuration row inserted by the seed. -/
def seedSiteConfig (now rowId : Nat) : SiteConfig :=
  { id := some rowId
    site_title := "Alexandra Smith - Designer & Photographer"
    site_description := "Portfolio showcasing UI/UX design work, photography, and 3D renders"
    owner_name := "Alexandra Smith"
    hero_title := "Creating Digital Experiences & Capturing Moments"
    hero_subtitle := "UI/UX Designer & Photographer passionate about storytelling through design and photography"
    hero_image_url := "https://images.unsplash.com/photo-1507003211169-0a1dd7228f2d?w=800&h=600&fit=crop"
    about_text := "I believe great design should be both beautiful and functional. With a background in both digital design and photography, I bring a unique perspective to every project."
    about_image_url := "https://images.unsplash.com/photo-1494790108755-2616b612b786?w=400&h=400&fit=crop"
    contact_email := "hello@alexandra-portfolio.com"
    social_links := [("linkedin", "https://linkedin.com/in/alexandrasmith"),
      ("instagram", "https://instagram.com/alex_designs"),
      ("behance", "https://behance.net/alexandrasmith"),
      ("dribbble", "https://dribbble.com/alexsmith")]
    theme_colors := [("primary", "#667eea"), ("secondary", "#764ba2"),
      ("accent", "#f093fb")]
    updated_at := now }

/-- First sample UI/UX project inserted by the seed (`owner.id if owner.id
else 1` evaluates to 1). -/
def seedProject1 (now rowId : Nat) : Project :=
  { id := some rowId
    title := "EcoShop Mobile App"
    slug := "ecoshop-mobile-app"
    description := "A sustainable shopping app that helps users make eco-friendly choices"
    detailed_description := "EcoShop is a mobile application designed to promote sustainable shopping habits. The app features product sustainability ratings, carbon footprint tracking, and personalized recommendations for eco-friendly alternatives."
    project_type := ProjectType.ui_ux
    status := ProjectStatus.published
    thumbnail_url := "https://images.unsplash.com/photo-1512941937669-90a1b58e7e9c?w=400&h=300&fit=crop"
    cover_image_url := "https://images.unsplash.com/photo-1512941937669-90a1b58e7e9c?w=800&h=600&fit=crop"
    client_name := "EcoTech Solutions"
    tags := ["Mobile App", "UI/UX", "Sustainability", "E-commerce"]
    technologies := ["Figma", "Sketch", "Principle", "InVision"]
    color_palette := ["#22C55E", "#16A34A", "#FFFFFF", "#F3F4F6"]
    project_duration := "3 months"
    featured := true
    sort_order := 1
    owner_id := 1
    created_at := now
    updated_at := now }

/-- Second sample UI/UX project inserted by the seed. -/
def seedProject2 (now rowId : Nat) : Project :=
  { id := some rowId
    title := "MindfulSpace Dashboard"
    slug := "mindfulspace-dashboard"
    description := "A wellness platform dashboard for meditation and mindfulness tracking"
    detailed_description := "MindfulSpace is a comprehensive wellness platform that helps users track their meditation progress, set mindfulness goals, and connect with guided sessions. The dashboard provides clear analytics and a calming user experience."
    project_type := ProjectType.ui_ux
    status := ProjectStatus.published
    thumbnail_url := "https://images.unsplash.com/photo-1544717297-fa95b6ee9643?w=400&h=300&fit=crop"
    cover_image_url := "https://images.unsplash.com/photo-1544717297-fa95b6ee9643?w=800&h=600&fit=crop"
    client_name := "Wellness Tech Inc"
    tags := ["Web App", "Dashboard", "Wellness", "Analytics"]
    technologies := ["Figma", "React", "Chart.js", "Framer Motion"]
    color_palette := ["#8B5CF6", "#A78BFA", "#F3F4F6", "#FFFFFF"]
    project_duration := "2 months"
    featured := true
    sort_order := 2
    owner_id := 1
    created_at := now
    updated_at := now }

/-- First sample gallery inserted by the seed (`is_public` keeps its model
default `True`). -/
def seedGallery1 (now rowId : Nat) : Gallery :=
  { id := some rowId
    title := "Urban Landscapes"
    slug := "urban-landscapes"
    description := "Capturing the beauty and energy of city life through architectural photography"
    gallery_type := GalleryType.portfolio
    cover_image_url := "https://images.unsplash.com/photo-1449824913935-59a10b8d2000?w=800&h=600&fit=crop"
    location := "San Francisco, CA"
    featured := true
    sort_order := 1
    owner_id := 1
    created_at := now
    updated_at := now }

/-- Second sample gallery inserted by the seed. -/
def seedGallery2 (now rowId : Nat) : Gallery :=
  { id := some rowId
    title := "Portrait Sessions"
    slug := "portrait-sessions"
    description := "Professional portraits that capture personality and emotion"
    gallery_type := GalleryType.client
    cover_image_url := "https://images.unsplash.com/photo-1507003211169-0a1dd7228f2d?w=800&h=600&fit=crop"
    location := "Studio & On-location"
    featured := true
    sort_order := 2
    owner_id := 1
    created_at := now
    updated_at := now }

/-- First sample 3D project inserted by the seed. -/
def seedThreeD1 (now rowId : Nat) : ThreeDProject :=
  { id := some rowId
    title := "Modern Living Room"
    slug := "modern-living-room"
    description := "Architectural visualization of a contemporary living space"
    software_used := ["Blender", "Cycles"]
    render_engine := "Cycles"
    render_time := "45 minutes"
    polygon_count := some 250000
    texture_resolution := "4K"
    featured_image_url := "https://images.unsplash.com/photo-1586023492125-27b2c045efd7?w=800&h=600&fit=crop"
    project_type := "Interior Design"
    style := "Photorealistic"
    tags := ["Architecture", "Interior", "Visualization"]
    featured := true
    sort_order := 1
    created_at := now
    updated_at := now }

/-- Second sample 3D project inserted by the seed. -/
def seedThreeD2 (now rowId : Nat) : ThreeDProject :=
  { id := some rowId
    title := "Abstract Composition"
    slug := "abstract-composition"
    description := "Experimental 3D artwork exploring form and color"
    software_used := ["Cinema 4D", "Octane"]
    render_engine := "Octane"
    render_time := "20 minutes"
    polygon_count := some 150000
    texture_resolution := "2K"
    featured_image_url := "https://images.unsplash.com/photo-1618005182384-a83a8bd57fbe?w=800&h=600&fit=crop"
    project_type := "Abstract Art"
    style := "Stylized"
    tags := ["Abstract", "Art", "Experimental"]
    featured := true
    sort_order := 2
    created_at := now
    updated_at := now }

/-- `SeedDataService.create_sample_data`: if any user row exists the call
returns immediately; otherwise it inserts the owner, the site config, two
published featured UI/UX projects, two featured galleries and two featured
3D projects, with the literal content of `app/services.py`.  Autoincrement
ids are assigned as table length + 1. -/
def create_sample_data (now : Nat) (s : Store) : Store :=
  if s.users ≠ [] then s
  else
    { s with
      users := s.users ++ [seedOwner now]
      siteConfigs := s.siteConfigs ++ [seedSiteConfig now (s.siteConfigs.length + 1)]
      projects := s.projects ++
        [seedProject1 now (s.projects.length + 1),
         seedProject2 now (s.projects.length + 2)]
      galleries := s.galleries ++
        [seedGallery1 now (s.galleries.length + 1),
         seedGallery2 now (s.galleries.length + 2)]
      threeDProjects := s.threeDProjects ++
        [seedThreeD1 now (s.threeDProjects.length + 1),
         seedThreeD2 now (s.threeDProjects.length + 2)] }

/- Enumeration of the `PortfolioService` operations, used to state
store-wide properties quantified over every operation of the service. -/

/-- A call to one operation of `PortfolioService`, with its arguments. -/
inductive Op where
  | opGetSiteConfig
  | opGetPortfolioOwner
  | opGetFeaturedProjects (limit : Nat)
  | opGetProjectsByType (ty : ProjectType) (limit : Option Nat)
  | opGetProjectBySlug (slug : String)
  | opGetProjectImages (project_id : Nat)
  | opGetFeaturedGalleries (limit : Nat)
  | opGetGalleriesByType (ty : GalleryType) (limit : Option Nat)
  | opGetGalleryBySlug (slug : String)
  | opGetGalleryPhotos (gallery_id : Nat)
  | opGetFeatured3dProjects (limit : Nat)
  | opGet3dProjectBySlug (slug : String)
  | opGet3dProjectRenders (project_id : Nat)
  | opCreateContactMessage (message_data : ContactMessageCreate)
      (ip_address : String) (user_agent : String) (now : Nat)
  | opGetRecentMessages (limit : Nat)

/-- The store after running one service operation.  Operations without a
write path leave the store untouched (they only run a `SELECT`). -/
def runOp (op : Op) (s : Store) : Store :=
  match op with
  | Op.opGetSiteConfig => s
  | Op.opGetPortfolioOwner => s
  | Op.opGetFeaturedProjects _ => s
  | Op.opGetProjectsByType _ _ => s
  | Op.opGetProjectBySlug slug => (get_project_by_slug s slug).2
  | Op.opGetProjectImages _ => s
  | Op.opGetFeaturedGalleries _ => s
  | Op.opGetGalleriesByType _ _ => s
  | Op.opGetGalleryBySlug slug => (get_gallery_by_slug s slug).2
  | Op.opGetGalleryPhotos _ => s
  | Op.opGetFeatured3dProjects _ => s
  | Op.opGet3dProjectBySlug slug => (get_3d_project_by_slug s slug).2
  | Op.opGet3dProjectRenders _ => s
  | Op.opCreateContactMessage md ip ua now =>
      (create_contact_message s md ip ua now).2
  | Op.opGetRecentMessages _ => s

/- Generic lemmas about the shared slug-lookup shape. -/

section SlugLookup

variable {α : Type} (sl : α → String) (rid : α → Option Nat) (inc : α → α)

/-- After writing a row `p2` with the matching slug over the primary key of
the first slug match `p`, the first slug match of the table is `p2`. -/
theorem find?_updateById (slug : String) (rows : List α) (p p2 : α)
    (hfind : rows.find? (fun r => decide (sl r = slug)) = some p)
    (hsl : sl p2 = slug) :
    (updateById rid (rid p) p2 rows).find? (fun r => decide (sl r = slug))
      = some p2 := by
  induction rows with
  | nil => simp [List.find?] at hfind
  | cons q rest ih =>
    rw [updateById, List.map_cons]
    by_cases hq : sl q = slug
    · have hp : q = p := by
        rw [List.find?_cons_of_pos _ (by simpa using hq)] at hfind
        exact Option.some.inj hfind
      rw [hp, if_pos rfl]
      exact List.find?_cons_of_pos _ (by simpa using hsl)
    · rw [List.find?_cons_of_neg _ (by simpa using hq)] at hfind
      by_cases hid : rid q = rid p
      · rw [if_pos hid]
        exact List.find?_cons_of_pos _ (by simpa using hsl)
      · rw [if_neg hid]
        rw [List.find?_cons_of_neg _ (by simpa using hq)]
        have h := ih hfind
        rw [updateById] at h
        exact h

/-- Lookup of a slug no row carries: absent result, table untouched. -/
theorem getBySlug_miss (slug : String) (rows : List α)
    (h : ∀ r ∈ rows, sl r ≠ slug) :
    getBySlug sl rid inc slug rows = (none, rows) := by
  have hf : rows.find? (fun r => decide (sl r = slug)) = none :=
    List.find?_eq_none.mpr fun x hx => by simpa using h x hx
  simp [getBySlug, hf]

/-- Lookup when the first slug match is known. -/
theorem getBySlug_found (slug : String) (rows : List α) (p : α)
    (hfind : rows.find? (fun r => decide (sl r = slug)) = some p) :
    getBySlug sl rid inc slug rows
      = (some (inc p), updateById rid (rid p) (inc p) rows) := by
  simp [getBySlug, hfind]

/-- A present result of a lookup comes from a first slug match `q`: the
result is `inc q` and the table is the id-targeted overwrite with `inc q`. -/
theorem getBySlug_hit (slug : String) (rows : List α) (p : α)
    (h : (getBySlug sl rid inc slug rows).1 = some p) :
    ∃ q, rows.find? (fun r => decide (sl r = slug)) = some q ∧ p = inc q ∧
      (getBySlug sl rid inc slug rows).2
        = updateById rid (rid q) (inc q) rows := by
  cases hf : rows.find? (fun r => decide (sl r = slug)) with
  | none => simp [getBySlug, hf] at h
  | some q =>
    have he := getBySlug_found sl rid inc slug rows q hf
    rw [he] at h
    exact ⟨q, rfl, (Option.some.inj h).symm, by rw [he]⟩

/-- When the table has pairwise distinct slugs, the first match of any
stored row's slug is that row itself. -/
theorem find?_slug_of_nodup (rows : List α) (p : α)
    (hnd : (rows.map sl).Nodup) (hp : p ∈ rows) :
    rows.find? (fun r => decide (sl r = sl p)) = some p := by
  induction rows with
  | nil => simp at hp
  | cons q rest ih =>
    by_cases hq : sl q = sl p
    · have hqp : q = p :=
        List.inj_on_of_nodup_map hnd (List.mem_cons_self q rest) hp hq
      rw [List.find?_cons_of_pos _ (by simpa using hq), hqp]
    · have hp' : p ∈ rest := by
        rcases List.mem_cons.mp hp with h | h
        · exact absurd (h ▸ rfl) hq
        · exact h
      rw [List.find?_cons_of_neg _ (by simpa using hq)]
      exact ih (by simpa using (List.nodup_cons.mp (by simpa using hnd)).2) hp'

/-- Two sequential lookups of a stored slug: the first returns some row
`q`, the second returns `inc q`. -/
theorem getBySlug_twice (slug : String) (rows : List α)
    (hincsl : ∀ a, sl (inc a) = sl a)
    (hex : ∃ p ∈ rows, sl p = slug) :
    ∃ q, (getBySlug sl rid inc slug rows).1 = some q ∧
      (getBySlug sl rid inc slug (getBySlug sl rid inc slug rows).2).1
        = some (inc q) := by
  obtain ⟨p0, hp0, hsl0⟩ := hex
  have hsome : (rows.find? (fun r => decide (sl r = slug))).isSome :=
    List.find?_isSome.mpr ⟨p0, hp0, by simpa using hsl0⟩
  obtain ⟨p, hfind⟩ := Option.isSome_iff_exists.mp hsome
  have hpsl : sl p = slug := by simpa using List.find?_some hfind
  have h1 := getBySlug_found sl rid inc slug rows p hfind
  have h2 : (updateById rid (rid p) (inc p) rows).find?
      (fun r => decide (sl r = slug)) = some (inc p) :=
    find?_updateById sl rid slug rows p (inc p) hfind (by rw [hincsl, hpsl])
  refine ⟨inc p, by rw [h1], ?_⟩
  rw [h1]
  have h3 := getBySlug_found sl rid inc slug
    (updateById rid (rid p) (inc p) rows) (inc p) h2
  rw [h3]

/-- Pointwise description of the id-targeted overwrite. -/
theorem updateById_getElem? (target : Option Nat) (p2 : α) (rows : List α)
    (i : Nat) :
    (updateById rid target p2 rows)[i]?
      = (rows[i]?).map fun q => if rid q = target then p2 else q := by
  rw [updateById, List.getElem?_map]

/-- With pairwise distinct primary keys, the id-targeted overwrite of a
stored row `q` by `inc q` never lowers a measure `vc` that `inc` does not
lower. -/
theorem updateById_mono (vc : α → Nat) (rows : List α) (q : α) (i : Nat)
    (hnd : (rows.map rid).Nodup) (hq : q ∈ rows)
    (hvc : ∀ a, vc a ≤ vc (inc a)) (p2 : α)
    (h : (updateById rid (rid q) (inc q) rows)[i]? = some p2) :
    ∃ p, rows[i]? = some p ∧ vc p ≤ vc p2 := by
  rw [updateById, List.getElem?_map] at h
  cases hrow : rows[i]? with
  | none => rw [hrow] at h; simp at h
  | some p =>
    rw [hrow] at h
    simp only [Option.map_some'] at h
    refine ⟨p, rfl, ?_⟩
    by_cases hid : rid p = rid q
    · have hpq : p = q :=
        List.inj_on_of_nodup_map hnd (List.getElem?_mem hrow) hq hid
      rw [← Option.some.inj h, if_pos hid, hpq]
      exact hvc q
    · rw [← Option.some.inj h]
      simp [hid]

end SlugLookup


/- Fixtures used by the concrete instantiations of the theorems below. -/

/-- Store obtained by seeding a fresh database at instant 0. -/
def seededStore : Store := create_sample_data 0 emptyStore

/-- Fixture: a draft project, to exercise the lookup paths. -/
def wProject : Project :=
  { id := some 1, title := "P1", slug := "p1", status := ProjectStatus.draft,
    owner_id := 1, created_at := 5, updated_at := 5 }

/-- Fixture: a non-public featured gallery. -/
def wGallery : Gallery :=
  { id := some 1, title := "G1", slug := "g1", is_public := false,
    featured := true, owner_id := 1, created_at := 5, updated_at := 5 }

/-- Fixture: a 3D project. -/
def wThreeD : ThreeDProject :=
  { id := some 1, title := "T1", slug := "t1", created_at := 5, updated_at := 5 }

/-- Fixture store holding the three rows above. -/
def wStore : Store :=
  { projects := [wProject], galleries := [wGallery],
    threeDProjects := [wThreeD] }

/-- Members of a truncated sorted listing come from the original table. -/
theorem mem_of_take_insertionSort {α : Type} (r : α → α → Prop) [DecidableRel r]
    (l : List α) (n : Nat) (x : α) (hx : x ∈ (List.insertionSort r l).take n) :
    x ∈ l :=
  (List.mem_insertionSort r).mp ((List.take_sublist n _).subset hx)

/-- C3: for every store and limit, `list_featured_projects` returns only
published featured projects, pairwise ordered by `sort_order` descending
with ties broken by `created_at` descending, with at most `limit` results;
omitting the limit gives limit 6. -/
theorem C3_featured_projects_filter_order_limit (s : Store) (limit : Nat) :
    (∀ p ∈ get_featured_projects s limit,
      p.status = ProjectStatus.published ∧ p.featured = true)
    ∧ List.Sorted projOrder (get_featured_projects s limit)
    ∧ (get_featured_projects s limit).length ≤ limit
    ∧ get_featured_projects s = get_featured_projects s 6 := by
  refine ⟨?_, ?_, ?_, rfl⟩
  · intro p hp
    have hmem : p ∈ s.projects.filter (fun p =>
        decide (p.status = ProjectStatus.published ∧ p.featured = true)) :=
      mem_of_take_insertionSort projOrder _ limit p hp
    simpa using (List.mem_filter.mp hmem).2
  · exact List.Pairwise.sublist (List.take_sublist _ _)
      (List.sorted_insertionSort projOrder _)
  · exact List.length_take_le _ _

set_option maxRecDepth 4096 in
/-- Instance of C3 on the seeded store: the first seeded project is listed
and is published and featured. -/
theorem C3_featured_projects_filter_order_limit_witness :
    seedProject1 0 1 ∈ get_featured_projects seededStore 6 ∧
      (seedProject1 0 1).status = ProjectStatus.published ∧
      (seedProject1 0 1).featured = true := by
  have hm : seedProject1 0 1 ∈ get_featured_projects seededStore 6 := by decide
  exact ⟨hm, (C3_featured_projects_filter_order_limit seededStore 6).1 _ hm⟩

/-- C4: lookup of a slug no row carries returns an absent result and
returns the store exactly as it was, for all three slugged entities. -/
theorem C4_absent_slug_absent_result_no_write (s : Store) (slug : String) :
    ((∀ p ∈ s.projects, p.slug ≠ slug) →
      get_project_by_slug s slug = (none, s))
    ∧ ((∀ g ∈ s.galleries, g.slug ≠ slug) →
      get_gallery_by_slug s slug = (none, s))
    ∧ ((∀ p ∈ s.threeDProjects, p.slug ≠ slug) →
      get_3d_project_by_slug s slug = (none, s)) := by
  refine ⟨fun h => ?_, fun h => ?_, fun h => ?_⟩
  · have hm := getBySlug_miss (fun p : Project => p.slug) (fun p => p.id)
      incProject slug s.projects h
    simp [get_project_by_slug, hm]
  · have hm := getBySlug_miss (fun g : Gallery => g.slug) (fun g => g.id)
      incGallery slug s.galleries h
    simp [get_gallery_by_slug, hm]
  · have hm := getBySlug_miss (fun p : ThreeDProject => p.slug) (fun p => p.id)
      incThreeD slug s.threeDProjects h
    simp [get_3d_project_by_slug, hm]

/-- Instance of C4 at a slug absent from the fixture store. -/
theorem C4_absent_slug_absent_result_no_write_witness :
    get_project_by_slug wStore "missing" = (none, wStore)
    ∧ get_gallery_by_slug wStore "missing" = (none, wStore)
    ∧ get_3d_project_by_slug wStore "missing" = (none, wStore) :=
  ⟨(C4_absent_slug_absent_result_no_write wStore "missing").1 (by decide),
   (C4_absent_slug_absent_result_no_write wStore "missing").2.1 (by decide),
   (C4_absent_slug_absent_result_no_write wStore "missing").2.2 (by decide)⟩

/-- C5: slug lookup matches on the slug alone: any stored project, whatever
its status, is returned (with the incremented view count) when its slug is
looked up; the `Nodup` hypothesis is the schema's slug uniqueness. -/
theorem C5_lookup_matches_slug_regardless_of_status (s : Store) (p : Project)
    (hnd : (s.projects.map fun q => q.slug).Nodup) (hp : p ∈ s.projects) :
    (get_project_by_slug s p.slug).1
      = some { p with view_count := p.view_count + 1 } := by
  have hf := find?_slug_of_nodup (fun q : Project => q.slug) s.projects p hnd hp
  have he := getBySlug_found (fun q : Project => q.slug) (fun q => q.id)
    incProject p.slug s.projects p hf
  simp [get_project_by_slug, he, incProject]

/-- Instance of C5: the fixture project is a draft, and looking its slug up
still returns it. -/
theorem C5_lookup_matches_slug_regardless_of_status_witness :
    wProject.status = ProjectStatus.draft ∧
      (get_project_by_slug wStore wProject.slug).1
        = some { wProject with view_count := wProject.view_count + 1 } :=
  ⟨rfl, C5_lookup_matches_slug_regardless_of_status wStore wProject
    (by decide) (by decide)⟩

/-- C6: gallery visibility is enforced only at listing time: a non-public
stored gallery is still returned by slug lookup (with incremented view
count), while the featured listing returns only public featured rows. -/
theorem C6_gallery_visibility_only_at_listing (s : Store) :
    (∀ g ∈ s.galleries, (s.galleries.map fun x => x.slug).Nodup →
      g.is_public = false →
      (get_gallery_by_slug s g.slug).1
        = some { g with view_count := g.view_count + 1 })
    ∧ ∀ limit : Nat, ∀ g ∈ get_featured_galleries s limit,
        g.is_public = true ∧ g.featured = true := by
  constructor
  · intro g hg hnd _
    have hf := find?_slug_of_nodup (fun x : Gallery => x.slug) s.galleries g hnd hg
    have he := getBySlug_found (fun x : Gallery => x.slug) (fun x => x.id)
      incGallery g.slug s.galleries g hf
    simp [get_gallery_by_slug, he, incGallery]
  · intro limit g hg
    have hmem : g ∈ s.galleries.filter (fun g =>
        decide (g.is_public = true ∧ g.featured = true)) :=
      mem_of_take_insertionSort galleryOrder _ limit g hg
    simpa using (List.mem_filter.mp hmem).2

/-- Instance of C6: the fixture gallery is non-public yet returned by its
slug lookup. -/
theorem C6_gallery_visibility_only_at_listing_witness :
    wGallery.is_public = false ∧
      (get_gallery_by_slug wStore wGallery.slug).1
        = some { wGallery with view_count := wGallery.view_count + 1 } :=
  ⟨rfl, (C6_gallery_visibility_only_at_listing wStore).1 wGallery
    (by decide) (by decide) rfl⟩

/-- C1: looking up a stored slug twice in sequence returns the record both
times, and the second result's view count is the first result's plus one;
for projects, galleries and 3D projects alike. -/
theorem C1_sequential_lookups_increment_view_count (s : Store) (slug : String) :
    ((∃ p ∈ s.projects, p.slug = slug) →
      ∃ q1 q2, (get_project_by_slug s slug).1 = some q1 ∧
        (get_project_by_slug (get_project_by_slug s slug).2 slug).1 = some q2 ∧
        q2.view_count = q1.view_count + 1)
    ∧ ((∃ g ∈ s.galleries, g.slug = slug) →
      ∃ q1 q2, (get_gallery_by_slug s slug).1 = some q1 ∧
        (get_gallery_by_slug (get_gallery_by_slug s slug).2 slug).1 = some q2 ∧
        q2.view_count = q1.view_count + 1)
    ∧ ((∃ p ∈ s.threeDProjects, p.slug = slug) →
      ∃ q1 q2, (get_3d_project_by_slug s slug).1 = some q1 ∧
        (get_3d_project_by_slug (get_3d_project_by_slug s slug).2 slug).1
          = some q2 ∧
        q2.view_count = q1.view_count + 1) := by
  refine ⟨fun hex => ?_, fun hex => ?_, fun hex => ?_⟩
  · obtain ⟨q, h1, h2⟩ := getBySlug_twice (fun p : Project => p.slug)
      (fun p => p.id) incProject slug s.projects (fun a => rfl) hex
    exact ⟨q, incProject q, h1, h2, rfl⟩
  · obtain ⟨q, h1, h2⟩ := getBySlug_twice (fun g : Gallery => g.slug)
      (fun g => g.id) incGallery slug s.galleries (fun a => rfl) hex
    exact ⟨q, incGallery q, h1, h2, rfl⟩
  · obtain ⟨q, h1, h2⟩ := getBySlug_twice (fun p : ThreeDProject => p.slug)
      (fun p => p.id) incThreeD slug s.threeDProjects (fun a => rfl) hex
    exact ⟨q, incThreeD q, h1, h2, rfl⟩

/-- Instance of C1 on the fixture store, for all three entities. -/
theorem C1_sequential_lookups_increment_view_count_witness :
    (∃ q1 q2, (get_project_by_slug wStore "p1").1 = some q1 ∧
      (get_project_by_slug (get_project_by_slug wStore "p1").2 "p1").1
        = some q2 ∧ q2.view_count = q1.view_count + 1)
    ∧ (∃ q1 q2, (get_gallery_by_slug wStore "g1").1 = some q1 ∧
      (get_gallery_by_slug (get_gallery_by_slug wStore "g1").2 "g1").1
        = some q2 ∧ q2.view_count = q1.view_count + 1)
    ∧ (∃ q1 q2, (get_3d_project_by_slug wStore "t1").1 = some q1 ∧
      (get_3d_project_by_slug (get_3d_project_by_slug wStore "t1").2 "t1").1
        = some q2 ∧ q2.view_count = q1.view_count + 1) :=
  ⟨(C1_sequential_lookups_increment_view_count wStore "p1").1 (by decide),
   (C1_sequential_lookups_increment_view_count wStore "g1").2.1 (by decide),
   (C1_sequential_lookups_increment_view_count wStore "t1").2.2 (by decide)⟩

/-- Seeding a fresh store produces exactly the eight literal sample rows. -/
theorem create_sample_data_emptyStore (t : Nat) :
    create_sample_data t emptyStore
      = { users := [seedOwner t],
          siteConfigs := [seedSiteConfig t 1],
          projects := [seedProject1 t 1, seedProject2 t 2],
          galleries := [seedGallery1 t 1, seedGallery2 t 2],
          threeDProjects := [seedThreeD1 t 1, seedThreeD2 t 2] } := rfl

/-- C2: seeding is a no-op as soon as any owner row exists, and on a fresh
store running it twice equals running it once: exactly one owner row, one
site config, two published featured UI/UX projects, two featured galleries
and two featured 3D projects. -/
theorem C2_seed_idempotent (t1 t2 : Nat) :
    (∀ s : Store, s.users ≠ [] → create_sample_data t2 s = s)
    ∧ create_sample_data t2 (create_sample_data t1 emptyStore)
        = create_sample_data t1 emptyStore
    ∧ (create_sample_data t1 emptyStore).users.length = 1
    ∧ (create_sample_data t1 emptyStore).siteConfigs.length = 1
    ∧ ((create_sample_data t1 emptyStore).projects.length = 2
      ∧ ∀ p ∈ (create_sample_data t1 emptyStore).projects,
          p.status = ProjectStatus.published ∧ p.featured = true ∧
            p.project_type = ProjectType.ui_ux)
    ∧ ((create_sample_data t1 emptyStore).galleries.length = 2
      ∧ ∀ g ∈ (create_sample_data t1 emptyStore).galleries,
          g.featured = true ∧ g.is_public = true)
    ∧ ((create_sample_data t1 emptyStore).threeDProjects.length = 2
      ∧ ∀ p ∈ (create_sample_data t1 emptyStore).threeDProjects,
          p.featured = true) := by
  have hnoop : ∀ (t : Nat) (s : Store), s.users ≠ [] →
      create_sample_data t s = s := by
    intro t s h
    simp [create_sample_data, h]
  refine ⟨hnoop t2, ?_, ?_, ?_, ⟨?_, ?_⟩, ⟨?_, ?_⟩, ⟨?_, ?_⟩⟩
  · refine hnoop t2 _ ?_
    rw [create_sample_data_emptyStore]
    simp
  · rw [create_sample_data_emptyStore]; rfl
  · rw [create_sample_data_emptyStore]; rfl
  · rw [create_sample_data_emptyStore]; rfl
  · rw [create_sample_data_emptyStore]
    intro p hp
    rcases List.mem_cons.mp hp with h | h
    · subst h; exact ⟨rfl, rfl, rfl⟩
    · rcases List.mem_singleton.mp h with h2
      subst h2; exact ⟨rfl, rfl, rfl⟩
  · rw [create_sample_data_emptyStore]; rfl
  · rw [create_sample_data_emptyStore]
    intro g hg
    rcases List.mem_cons.mp hg with h | h
    · subst h; exact ⟨rfl, rfl⟩
    · rcases List.mem_singleton.mp h with h2
      subst h2; exact ⟨rfl, rfl⟩
  · rw [create_sample_data_emptyStore]; rfl
  · rw [create_sample_data_emptyStore]
    intro p hp
    rcases List.mem_cons.mp hp with h | h
    · subst h; rfl
    · rcases List.mem_singleton.mp h with h2
      subst h2; rfl

/-- Instance of C2's no-op guard: re-seeding the already seeded store
changes nothing. -/
theorem C2_seed_idempotent_witness :
    create_sample_data 1 seededStore = seededStore :=
  (C2_seed_idempotent 0 1).1 seededStore (by decide)

/-- C7: creating a contact message persists and returns a record with
status `new`, the call instant as `created_at`, the supplied form fields
and request metadata verbatim, and a store-assigned identifier. -/
theorem C7_create_contact_message_contract (s : Store)
    (md : ContactMessageCreate) (ip ua : String) (now : Nat)
    (_hv : md.valid) :
    (create_contact_message s md ip ua now).1.status = MessageStatus.new
    ∧ (create_contact_message s md ip ua now).1.created_at = now
    ∧ (create_contact_message s md ip ua now).1.name = md.name
    ∧ (create_contact_message s md ip ua now).1.email = md.email
    ∧ (create_contact_message s md ip ua now).1.subject = md.subject
    ∧ (create_contact_message s md ip ua now).1.message = md.message
    ∧ (create_contact_message s md ip ua now).1.ip_address = ip
    ∧ (create_contact_message s md ip ua now).1.user_agent = ua
    ∧ (create_contact_message s md ip ua now).1.id
        = some (s.contactMessages.length + 1)
    ∧ (create_contact_message s md ip ua now).1
        ∈ (create_contact_message s md ip ua now).2.contactMessages := by
  refine ⟨rfl, rfl, rfl, rfl, rfl, rfl, rfl, rfl, rfl, ?_⟩
  simp [create_contact_message]

/-- The contact submission of the verification scenario. -/
def johnMessage : ContactMessageCreate :=
  { name := "John Doe", email := "john@example.com",
    subject := "Project Inquiry",
    message := "I would like to discuss a potential project." }

/-- Instance of C7 on a concrete valid submission. -/
theorem C7_create_contact_message_contract_witness :
    johnMessage.valid ∧
      (create_contact_message emptyStore johnMessage "192.168.1.1"
        "Test Browser" 7).1.status = MessageStatus.new ∧
      (create_contact_message emptyStore johnMessage "192.168.1.1"
        "Test Browser" 7).1.ip_address = "192.168.1.1" :=
  ⟨by decide,
   (C7_create_contact_message_contract emptyStore johnMessage "192.168.1.1"
     "Test Browser" 7 (by decide)).1,
   (C7_create_contact_message_contract emptyStore johnMessage "192.168.1.1"
     "Test Browser" 7 (by decide)).2.2.2.2.2.2.1⟩

/-- Store after the three contact-form submissions of the recency scenario:
"User 0", then "User 1", then "User 2", at increasing instants. -/
def scenarioStore : Store :=
  (create_contact_message
    (create_contact_message
      (create_contact_message emptyStore
        { name := "User 0", email := "user0@example.com",
          subject := "Subject 0", message := "Message content 0" } "" "" 0).2
      { name := "User 1", email := "user1@example.com",
        subject := "Subject 1", message := "Message content 1" } "" "" 1).2
    { name := "User 2", email := "user2@example.com",
      subject := "Subject 2", message := "Message content 2" } "" "" 2).2

/-- C8: `list_recent_messages` returns stored messages pairwise ordered by
`created_at` descending, truncated to `limit`; and on the three-message
scenario with limit 2, exactly "User 2" then "User 1". -/
theorem C8_recent_messages_order_and_scenario (s : Store) (limit : Nat) :
    (List.Sorted msgOrder (get_recent_messages s limit)
      ∧ (get_recent_messages s limit).length ≤ limit
      ∧ ∀ m ∈ get_recent_messages s limit, m ∈ s.contactMessages)
    ∧ (get_recent_messages scenarioStore 2).map (fun m => m.name)
        = ["User 2", "User 1"] := by
  refine ⟨⟨?_, ?_, ?_⟩, by decide⟩
  · exact List.Pairwise.sublist (List.take_sublist _ _)
      (List.sorted_insertionSort msgOrder _)
  · exact List.length_take_le _ _
  · intro m hm
    exact mem_of_take_insertionSort msgOrder _ limit m hm

/-- The third scenario message as stored. -/
def scenarioMsg2 : ContactMessage :=
  { id := some 3, name := "User 2", email := "user2@example.com",
    subject := "Subject 2", message := "Message content 2", created_at := 2 }

/-- Instance of C8's membership claim on the scenario store. -/
theorem C8_recent_messages_order_and_scenario_witness :
    scenarioMsg2 ∈ get_recent_messages scenarioStore 2 ∧
      scenarioMsg2 ∈ scenarioStore.contactMessages :=
  ⟨by decide,
   (C8_recent_messages_order_and_scenario scenarioStore 2).1.2.2 scenarioMsg2
     (by decide)⟩

/-- C10: a limit of 0 is falsy in Python, so `get_projects_by_type` and
`get_galleries_by_type` apply no truncation at all: the result equals the
no-limit call and contains every matching record. -/
theorem C10_zero_limit_no_truncation (s : Store) (ty : ProjectType)
    (gty : GalleryType) :
    get_projects_by_type s ty (some 0) = get_projects_by_type s ty none
    ∧ (∀ p ∈ s.projects, p.status = ProjectStatus.published →
        p.project_type = ty → p ∈ get_projects_by_type s ty (some 0))
    ∧ get_galleries_by_type s gty (some 0) = get_galleries_by_type s gty none
    ∧ (∀ g ∈ s.galleries, g.is_public = true → g.gallery_type = gty →
        g ∈ get_galleries_by_type s gty (some 0)) := by
  refine ⟨rfl, ?_, rfl, ?_⟩
  · intro p hp h1 h2
    have hmem : p ∈ s.projects.filter (fun p =>
        decide (p.status = ProjectStatus.published ∧ p.project_type = ty)) :=
      List.mem_filter.mpr ⟨hp, by simp [h1, h2]⟩
    simpa [get_projects_by_type] using
      (List.mem_insertionSort projOrder).mpr hmem
  · intro g hg h1 h2
    have hmem : g ∈ s.galleries.filter (fun g =>
        decide (g.is_public = true ∧ g.gallery_type = gty)) :=
      List.mem_filter.mpr ⟨hg, by simp [h1, h2]⟩
    simpa [get_galleries_by_type] using
      (List.mem_insertionSort galleryOrder).mpr hmem

set_option maxRecDepth 4096 in
/-- Instance of C10 on the seeded store. -/
theorem C10_zero_limit_no_truncation_witness :
    seedProject1 0 1 ∈ get_projects_by_type seededStore ProjectType.ui_ux (some 0)
    ∧ seedGallery1 0 1
        ∈ get_galleries_by_type seededStore GalleryType.portfolio (some 0) :=
  ⟨(C10_zero_limit_no_truncation seededStore ProjectType.ui_ux
      GalleryType.portfolio).2.1 _ (by decide) (by decide) (by decide),
   (C10_zero_limit_no_truncation seededStore ProjectType.ui_ux
      GalleryType.portfolio).2.2.2 _ (by decide) (by decide) (by decide)⟩

/-- Slug-uniqueness of primary keys in the three view-counted tables
(enforced by the database's primary-key constraint). -/
def idsNodup (s : Store) : Prop :=
  (s.projects.map fun p => p.id).Nodup
  ∧ (s.galleries.map fun g => g.id).Nodup
  ∧ (s.threeDProjects.map fun p => p.id).Nodup

instance (s : Store) : Decidable (idsNodup s) := by
  unfold idsNodup
  infer_instance

/-- A project slug lookup never lowers the view count of any row. -/
theorem get_project_by_slug_mono (s : Store) (slug : String)
    (hnd : (s.projects.map fun p => p.id).Nodup) (i : Nat) (p2 : Project)
    (h : (get_project_by_slug s slug).2.projects[i]? = some p2) :
    ∃ p1, s.projects[i]? = some p1 ∧ p1.view_count ≤ p2.view_count := by
  cases hf : s.projects.find? (fun r => decide (r.slug = slug)) with
  | none =>
    have he : (get_project_by_slug s slug).2.projects = s.projects := by
      simp [get_project_by_slug, getBySlug, hf]
    rw [he] at h
    exact ⟨p2, h, Nat.le_refl _⟩
  | some q =>
    have he := getBySlug_found (fun r : Project => r.slug) (fun r => r.id)
      incProject slug s.projects q hf
    have hx : (get_project_by_slug s slug).2.projects
        = updateById (fun r : Project => r.id) q.id (incProject q)
            s.projects := by
      show (getBySlug (fun r : Project => r.slug) (fun r => r.id) incProject
        slug s.projects).2 = _
      rw [he]
    rw [hx] at h
    exact updateById_mono (fun r : Project => r.id) incProject
      (fun r => r.view_count) s.projects q i hnd
      (List.mem_of_find?_eq_some hf) (fun a => Nat.le_succ _) p2 h

/-- A gallery slug lookup never lowers the view count of any row. -/
theorem get_gallery_by_slug_mono (s : Store) (slug : String)
    (hnd : (s.galleries.map fun g => g.id).Nodup) (i : Nat) (g2 : Gallery)
    (h : (get_gallery_by_slug s slug).2.galleries[i]? = some g2) :
    ∃ g1, s.galleries[i]? = some g1 ∧ g1.view_count ≤ g2.view_count := by
  cases hf : s.galleries.find? (fun r => decide (r.slug = slug)) with
  | none =>
    have he : (get_gallery_by_slug s slug).2.galleries = s.galleries := by
      simp [get_gallery_by_slug, getBySlug, hf]
    rw [he] at h
    exact ⟨g2, h, Nat.le_refl _⟩
  | some q =>
    have he := getBySlug_found (fun r : Gallery => r.slug) (fun r => r.id)
      incGallery slug s.galleries q hf
    have hx : (get_gallery_by_slug s slug).2.galleries
        = updateById (fun r : Gallery => r.id) q.id (incGallery q)
            s.galleries := by
      show (getBySlug (fun r : Gallery => r.slug) (fun r => r.id) incGallery
        slug s.galleries).2 = _
      rw [he]
    rw [hx] at h
    exact updateById_mono (fun r : Gallery => r.id) incGallery
      (fun r => r.view_count) s.galleries q i hnd
      (List.mem_of_find?_eq_some hf) (fun a => Nat.le_succ _) g2 h

/-- A 3D-project slug lookup never lowers the view count of any row. -/
theorem get_3d_project_by_slug_mono (s : Store) (slug : String)
    (hnd : (s.threeDProjects.map fun p => p.id).Nodup) (i : Nat)
    (t2 : ThreeDProject)
    (h : (get_3d_project_by_slug s slug).2.threeDProjects[i]? = some t2) :
    ∃ t1, s.threeDProjects[i]? = some t1 ∧ t1.view_count ≤ t2.view_count := by
  cases hf : s.threeDProjects.find? (fun r => decide (r.slug = slug)) with
  | none =>
    have he : (get_3d_project_by_slug s slug).2.threeDProjects
        = s.threeDProjects := by
      simp [get_3d_project_by_slug, getBySlug, hf]
    rw [he] at h
    exact ⟨t2, h, Nat.le_refl _⟩
  | some q =>
    have he := getBySlug_found (fun r : ThreeDProject => r.slug)
      (fun r => r.id) incThreeD slug s.threeDProjects q hf
    have hx : (get_3d_project_by_slug s slug).2.threeDProjects
        = updateById (fun r : ThreeDProject => r.id) q.id (incThreeD q)
            s.threeDProjects := by
      show (getBySlug (fun r : ThreeDProject => r.slug) (fun r => r.id)
        incThreeD slug s.threeDProjects).2 = _
      rw [he]
    rw [hx] at h
    exact updateById_mono (fun r : ThreeDProject => r.id) incThreeD
      (fun r => r.view_count) s.threeDProjects q i hnd
      (List.mem_of_find?_eq_some hf) (fun a => Nat.le_succ _) t2 h

/-- C9: the view-count increment is the only mutation a read path performs:
a successful slug lookup changes exactly the matched row and only its
`view_count` field (every other table of the store is returned unchanged),
and across every operation of the service no row's `view_count` decreases. -/
theorem C9_view_count_only_read_mutation (s : Store) (slug : String) :
    (∀ p, (get_project_by_slug s slug).1 = some p →
      ∃ q ∈ s.projects,
        p = { q with view_count := q.view_count + 1 }
        ∧ (∀ i : Nat, (get_project_by_slug s slug).2.projects[i]?
            = (s.projects[i]?).map fun r =>
                if r.id = q.id then { q with view_count := q.view_count + 1 }
                else r)
        ∧ (get_project_by_slug s slug).2.users = s.users
        ∧ (get_project_by_slug s slug).2.siteConfigs = s.siteConfigs
        ∧ (get_project_by_slug s slug).2.projectImages = s.projectImages
        ∧ (get_project_by_slug s slug).2.galleries = s.galleries
        ∧ (get_project_by_slug s slug).2.photos = s.photos
        ∧ (get_project_by_slug s slug).2.threeDProjects = s.threeDProjects
        ∧ (get_project_by_slug s slug).2.threeDRenders = s.threeDRenders
        ∧ (get_project_by_slug s slug).2.contactMessages = s.contactMessages)
    ∧ (∀ g, (get_gallery_by_slug s slug).1 = some g →
      ∃ q ∈ s.galleries,
        g = { q with view_count := q.view_count + 1 }
        ∧ (∀ i : Nat, (get_gallery_by_slug s slug).2.galleries[i]?
            = (s.galleries[i]?).map fun r =>
                if r.id = q.id then { q with view_count := q.view_count + 1 }
                else r)
        ∧ (get_gallery_by_slug s slug).2.users = s.users
        ∧ (get_gallery_by_slug s slug).2.siteConfigs = s.siteConfigs
        ∧ (get_gallery_by_slug s slug).2.projects = s.projects
        ∧ (get_gallery_by_slug s slug).2.projectImages = s.projectImages
        ∧ (get_gallery_by_slug s slug).2.photos = s.photos
        ∧ (get_gallery_by_slug s slug).2.threeDProjects = s.threeDProjects
        ∧ (get_gallery_by_slug s slug).2.threeDRenders = s.threeDRenders
        ∧ (get_gallery_by_slug s slug).2.contactMessages = s.contactMessages)
    ∧ (∀ t, (get_3d_project_by_slug s slug).1 = some t →
      ∃ q ∈ s.threeDProjects,
        t = { q with view_count := q.view_count + 1 }
        ∧ (∀ i : Nat, (get_3d_project_by_slug s slug).2.threeDProjects[i]?
            = (s.threeDProjects[i]?).map fun r =>
                if r.id = q.id then { q with view_count := q.view_count + 1 }
                else r)
        ∧ (get_3d_project_by_slug s slug).2.users = s.users
        ∧ (get_3d_project_by_slug s slug).2.siteConfigs = s.siteConfigs
        ∧ (get_3d_project_by_slug s slug).2.projects = s.projects
        ∧ (get_3d_project_by_slug s slug).2.projectImages = s.projectImages
        ∧ (get_3d_project_by_slug s slug).2.galleries = s.galleries
        ∧ (get_3d_project_by_slug s slug).2.photos = s.photos
        ∧ (get_3d_project_by_slug s slug).2.threeDRenders = s.threeDRenders
        ∧ (get_3d_project_by_slug s slug).2.contactMessages
            = s.contactMessages)
    ∧ (idsNodup s → ∀ (op : Op) (i : Nat),
        (∀ p2, (runOp op s).projects[i]? = some p2 →
          ∃ p1, s.projects[i]? = some p1 ∧ p1.view_count ≤ p2.view_count)
        ∧ (∀ g2, (runOp op s).galleries[i]? = some g2 →
          ∃ g1, s.galleries[i]? = some g1 ∧ g1.view_count ≤ g2.view_count)
        ∧ (∀ t2, (runOp op s).threeDProjects[i]? = some t2 →
          ∃ t1, s.threeDProjects[i]? = some t1
            ∧ t1.view_count ≤ t2.view_count)) := by
  refine ⟨?_, ?_, ?_, ?_⟩
  · intro p h
    obtain ⟨q, hfind, hpq, hupd⟩ := getBySlug_hit (fun r : Project => r.slug)
      (fun r => r.id) incProject slug s.projects p h
    refine ⟨q, List.mem_of_find?_eq_some hfind, hpq, ?_,
      rfl, rfl, rfl, rfl, rfl, rfl, rfl, rfl⟩
    intro i
    show (getBySlug (fun r : Project => r.slug) (fun r => r.id) incProject
      slug s.projects).2[i]? = _
    rw [hupd, updateById_getElem?]
    rfl
  · intro g h
    obtain ⟨q, hfind, hpq, hupd⟩ := getBySlug_hit (fun r : Gallery => r.slug)
      (fun r => r.id) incGallery slug s.galleries g h
    refine ⟨q, List.mem_of_find?_eq_some hfind, hpq, ?_,
      rfl, rfl, rfl, rfl, rfl, rfl, rfl, rfl⟩
    intro i
    show (getBySlug (fun r : Gallery => r.slug) (fun r => r.id) incGallery
      slug s.galleries).2[i]? = _
    rw [hupd, updateById_getElem?]
    rfl
  · intro t h
    obtain ⟨q, hfind, hpq, hupd⟩ := getBySlug_hit
      (fun r : ThreeDProject => r.slug) (fun r => r.id) incThreeD slug
      s.threeDProjects t h
    refine ⟨q, List.mem_of_find?_eq_some hfind, hpq, ?_,
      rfl, rfl, rfl, rfl, rfl, rfl, rfl, rfl⟩
    intro i
    show (getBySlug (fun r : ThreeDProject => r.slug) (fun r => r.id)
      incThreeD slug s.threeDProjects).2[i]? = _
    rw [hupd, updateById_getElem?]
    rfl
  · intro hnd op i
    cases op
    case opGetProjectBySlug sl =>
      exact ⟨fun p2 h => get_project_by_slug_mono s sl hnd.1 i p2 h,
        fun g2 h => ⟨g2, h, Nat.le_refl _⟩,
        fun t2 h => ⟨t2, h, Nat.le_refl _⟩⟩
    case opGetGalleryBySlug sl =>
      exact ⟨fun p2 h => ⟨p2, h, Nat.le_refl _⟩,
        fun g2 h => get_gallery_by_slug_mono s sl hnd.2.1 i g2 h,
        fun t2 h => ⟨t2, h, Nat.le_refl _⟩⟩
    case opGet3dProjectBySlug sl =>
      exact ⟨fun p2 h => ⟨p2, h, Nat.le_refl _⟩,
        fun g2 h => ⟨g2, h, Nat.le_refl _⟩,
        fun t2 h => get_3d_project_by_slug_mono s sl hnd.2.2 i t2 h⟩
    all_goals
      exact ⟨fun p2 h => ⟨p2, h, Nat.le_refl _⟩,
        fun g2 h => ⟨g2, h, Nat.le_refl _⟩,
        fun t2 h => ⟨t2, h, Nat.le_refl _⟩⟩

/-- Instance of C9 on the fixture store: the hit on the draft project
leaves the other tables untouched, and running the lookup operation does
not lower the view count at position 0. -/
theorem C9_view_count_only_read_mutation_witness :
    ((get_project_by_slug wStore "p1").1 = some (incProject wProject)
      ∧ (get_project_by_slug wStore "p1").2.galleries = wStore.galleries
      ∧ (get_project_by_slug wStore "p1").2.contactMessages
          = wStore.contactMessages)
    ∧ ∃ p1, wStore.projects[0]? = some p1
        ∧ p1.view_count ≤ (incProject wProject).view_count := by
  have h1 : (get_project_by_slug wStore "p1").1 = some (incProject wProject) := by
    decide
  obtain ⟨q, hq, hpq, hpt, hu, hsc, hpi, hgal, hph, htdp, htdr, hcm⟩ :=
    (C9_view_count_only_read_mutation wStore "p1").1 (incProject wProject) h1
  have h2 : (runOp (Op.opGetProjectBySlug "p1") wStore).projects[0]?
      = some (incProject wProject) := by decide
  obtain ⟨p1, hp1, hle⟩ :=
    ((C9_view_count_only_read_mutation wStore "p1").2.2.2 (by decide)
      (Op.opGetProjectBySlug "p1") 0).1 (incProject wProject) h2
  exact ⟨⟨h1, hgal, hcm⟩, p1, hp1, hle⟩
